import Mathlib

/-!
Verification development for the study-session / task / analytics core of the
jsbttrstudy4 repository (a Pomodoro study-productivity web app).

The definitions below are a shallow embedding of the TypeScript source:

* the Pomodoro phase machine and session reconciliation come from the timer
  page (`handlePhaseComplete`, `checkActiveSession`, `handleEndSession`,
  `handleToggleTask`, `handleCreateTask`);
* the persistence-layer operations come from `src/utils/supabase/client.tsx`
  (`createTodo`, `updateTodo`, `updateStudySession`, `getAnalytics`,
  `initializeUserAnalytics`, `updateAnalyticsAfterSession`,
  `updateAnalyticsAfterTaskCompletion`);
* the aggregation query layer comes from the analytics page
  (`loadAnalyticsData`).

Conventions: wall-clock instants are modelled as integer Unix milliseconds
(`Int`); ISO-8601 timestamp strings that the code merely stores and never
interprets arithmetically stay `String`; JavaScript numbers that hold whole
minute counts are `Nat`; the floating-point arithmetic of the analytics page
is modelled exactly over `ℚ`; `undefined`/absent values are `Option`;
a thrown exception is `Except.error` carrying the thrown message; the
remote analytics row is `Option Analytics` (`none` = no row yet).
-/

/-! ## Clock/Phase model (timer page) -/

/-- PomodoroPhase: the three phases of the timer page
(`work`, `short-break`, `long-break`). -/
inductive PomodoroPhase
  | work
  | shortBreak
  | longBreak
  deriving DecidableEq, Repr

/-- Phase-transition part of `handlePhaseComplete` on the timer page:
on completing `work` the cycle count is bumped and every 4th completed work
phase goes to the long break, otherwise the short break; completing either
break returns to `work` with the cycle count untouched. -/
def handlePhaseComplete (currentPhase : PomodoroPhase) (cycleCount : Nat) :
    PomodoroPhase × Nat :=
  match currentPhase with
  | PomodoroPhase.work =>
      let newCycleCount := cycleCount + 1
      ((if newCycleCount % 4 = 0 then PomodoroPhase.longBreak
        else PomodoroPhase.shortBreak),
       newCycleCount)
  | _ => (PomodoroPhase.work, cycleCount)

/-! ## Session reconciliation (timer page, `checkActiveSession`) -/

/-- Elapsed whole minutes since the session start, as computed by
`Math.floor((now.getTime() - sessionStart.getTime()) / 60000)`.
Integer division on `Int` is Euclidean, which for the positive divisor
60000 is exactly the floor that `Math.floor` produces. -/
def elapsedMinutes (now startTime : Int) : Int :=
  (now - startTime) / 60000

/-- Remaining seconds computed by `checkActiveSession` when an open session
is found after a reload:
`Math.max(0, workDuration * 60 - elapsedMinutes * 60)`. -/
def checkActiveSessionRemaining (workDuration : Nat) (now startTime : Int) :
    Int :=
  max 0 ((workDuration : Int) * 60 - elapsedMinutes now startTime * 60)

/-! ## Analytics aggregate (client.tsx) -/

/-- Functional update of a JavaScript-object-as-map: assigning
`m[k] = v` replaces the value at an existing key in place and appends the
key otherwise. -/
def setKey (m : List (String × Nat)) (k : String) (v : Nat) :
    List (String × Nat) :=
  match m with
  | [] => [(k, v)]
  | (a, b) :: rest =>
      if a = k then (k, v) :: rest else (a, b) :: setKey rest k v

/-- Analytics: the per-owner aggregate row (`interface Analytics` in
client.tsx, minus the id/user_id/updated_at bookkeeping columns that no
aggregation rule reads). `subjects_breakdown` is the subject → minutes
object, kept as an association list with unique keys. -/
structure Analytics where
  total_sessions : Nat
  total_study_time : Nat
  total_completed_tasks : Nat
  subjects_breakdown : List (String × Nat)
  deriving DecidableEq, Repr

/-- Row inserted by `initializeUserAnalytics`: every counter zero and an
empty subjects object. -/
def initializeUserAnalytics : Analytics :=
  { total_sessions := 0
    total_study_time := 0
    total_completed_tasks := 0
    subjects_breakdown := [] }

/-- getAnalytics: returns the stored row, lazily creating the zeroed row via
`initializeUserAnalytics` when none exists yet (the PGRST116 branch). -/
def getAnalytics (stored : Option Analytics) : Analytics :=
  stored.getD initializeUserAnalytics

/-- updateAnalyticsAfterSession: read-modify-write that bumps
`total_sessions` by one, `total_study_time` by the closed duration, and the
subject entry of `subjects_breakdown` by the same duration
(`(breakdown[subject] || 0) + duration`, creating the key when absent). -/
def updateAnalyticsAfterSession (subject : String) (duration : Nat)
    (stored : Option Analytics) : Analytics :=
  let analytics := getAnalytics stored
  { analytics with
    total_sessions := analytics.total_sessions + 1
    total_study_time := analytics.total_study_time + duration
    subjects_breakdown :=
      setKey analytics.subjects_breakdown subject
        ((List.lookup subject analytics.subjects_breakdown).getD 0 + duration) }

/-- updateAnalyticsAfterTaskCompletion: read-modify-write that bumps
`total_completed_tasks` by one and touches nothing else. -/
def updateAnalyticsAfterTaskCompletion (stored : Option Analytics) :
    Analytics :=
  let analytics := getAnalytics stored
  { analytics with
    total_completed_tasks := analytics.total_completed_tasks + 1 }

/-! ## Todos (client.tsx and the timer page task handlers) -/

/-- TodoStatus: the `status` column of a todo. -/
inductive TodoStatus
  | pending
  | completed
  deriving DecidableEq, Repr

/-- Todo: the todo record (`interface Todo` in client.tsx, minus the
id/user_id/created_at bookkeeping columns no modelled rule reads).
`completed_at` keeps the stored ISO string uninterpreted. -/
structure Todo where
  title : String
  description : Option String
  status : TodoStatus
  completed_at : Option String
  deriving DecidableEq, Repr

/-- TodoUpdate: a `Partial<Todo>` update payload; `none` means the field is
absent from the payload. -/
structure TodoUpdate where
  title : Option String := none
  description : Option (Option String) := none
  status : Option TodoStatus := none
  completed_at : Option (Option String) := none
  deriving DecidableEq, Repr

/-- JavaScript `String.prototype.trim` over the character list: whitespace
is stripped from both ends. -/
def jsTrimList (l : List Char) : List Char :=
  (((l.dropWhile Char.isWhitespace).reverse.dropWhile Char.isWhitespace).reverse)

/-- createTodo: throws `Todo title is required` when the title trims to the
empty string (`!todo.title?.trim()`), otherwise inserts the todo with the
trimmed title. -/
def createTodo (todo : Todo) : Except String Todo :=
  if (jsTrimList todo.title.toList).isEmpty then
    Except.error "Todo title is required"
  else
    Except.ok { todo with title := (jsTrimList todo.title.toList).asString }

/-- Application of a `Partial<Todo>` payload to the stored row: present
fields overwrite, absent fields keep the stored value. -/
def applyTodoUpdate (todo : Todo) (updates : TodoUpdate) : Todo :=
  { title := updates.title.getD todo.title
    description := updates.description.getD todo.description
    status := updates.status.getD todo.status
    completed_at := updates.completed_at.getD todo.completed_at }

/-- updateTodo: writes the payload over the stored todo and, exactly when
the payload carries `status: completed`, runs
`updateAnalyticsAfterTaskCompletion`; the stored todo's previous status is
never consulted. Returns the updated todo and the analytics row state. -/
def updateTodo (todo : Todo) (updates : TodoUpdate)
    (stored : Option Analytics) : Todo × Option Analytics :=
  (applyTodoUpdate todo updates,
   if updates.status = some TodoStatus.completed then
     some (updateAnalyticsAfterTaskCompletion stored)
   else stored)

/-- Payload built by the timer page's `handleToggleTask`:
`{ status: completed ? 'completed' : 'pending',
completed_at: completed ? new Date().toISOString() : undefined }`
(an `undefined` property is dropped from the serialized payload). -/
def handleToggleTaskUpdate (completed : Bool) (nowIso : String) : TodoUpdate :=
  { status := some (if completed then TodoStatus.completed else TodoStatus.pending)
    completed_at := if completed then some (some nowIso) else none }

/-! ## Study sessions (client.tsx `updateStudySession`) -/

/-- SessionUpdate: a `Partial<StudySession>` update payload for
`updateStudySession`; `none` means the field is absent. -/
structure SessionUpdate where
  session_name : Option String := none
  subject : Option String := none
  duration : Option Nat := none
  start_time : Option String := none
  end_time : Option String := none
  deriving DecidableEq, Repr

/-- JavaScript truthiness of an optional string: `undefined` and the empty
string are falsy. -/
def jsTruthyString : Option String → Bool
  | none => false
  | some s => !(s == "")

/-- JavaScript truthiness of an optional number standing for whole minutes:
`undefined` and `0` are falsy. -/
def jsTruthyNat : Option Nat → Bool
  | none => false
  | some n => !(n == 0)

/-- updateStudySession, restricted to its analytics side effect: the guard
`if (updates.end_time && updates.duration)` runs
`updateAnalyticsAfterSession(updates.subject!, updates.duration)` only when
the payload has a truthy (present, non-empty) `end_time` and a truthy
(present, nonzero) `duration`; otherwise the analytics row is untouched.
The non-null assertion `updates.subject!` passes an absent subject through
unchecked, which JavaScript object indexing renders as the key
`"undefined"`. -/
def updateStudySession (updates : SessionUpdate)
    (stored : Option Analytics) : Option Analytics :=
  if jsTruthyString updates.end_time && jsTruthyNat updates.duration then
    some (updateAnalyticsAfterSession (updates.subject.getD "undefined")
      (updates.duration.getD 0) stored)
  else stored

/-! ## Aggregation query layer (analytics page, `loadAnalyticsData`) -/

/-- TimeRange: the analytics page's `week | month | year` selector. -/
inductive TimeRange
  | week
  | month
  | year
  deriving DecidableEq, Repr

/-- Floor of a rational, written executably as `num / den` (Euclidean
integer division by the positive denominator). -/
def ratFloor (q : ℚ) : ℤ :=
  q.num / (q.den : ℤ)

/-- JavaScript `Math.round`: half-up rounding, `Math.floor(q + 0.5)`. -/
def jsRound (q : ℚ) : ℤ :=
  ratFloor (q + 1 / 2)

/-- Milliseconds in a day, the `24 * 60 * 60 * 1000` of the page. -/
def msPerDay : Int := 86400000

/-- Start of the calendar day containing an instant, the page's
`date.setHours(0, 0, 0, 0)`; modelled with day boundaries at UTC offset
zero (the page uses the caller's local offset, a fixed shift that no claim
depends on). -/
def dayFloor (t : Int) : Int :=
  msPerDay * (t / msPerDay)

/-- AnalyticsSession: the session record shape that `loadAnalyticsData`
reads — `completedAt` (completion instant, absent while open),
`totalFocusMinutes`, plus the display fields of its detailed rows. -/
structure AnalyticsSession where
  id : String
  name : String
  startTime : Int
  completedAt : Option Int
  totalFocusMinutes : Nat
  tasksCompleted : Nat
  pomodoroType : String
  deriving DecidableEq, Repr

/-- Days shown per range: `timeRange === 'week' ? 7 : timeRange === 'month'
? 30 : 365`. -/
def daysToShow : TimeRange → Nat
  | TimeRange.week => 7
  | TimeRange.month => 30
  | TimeRange.year => 365

/-- Cutoff instant per range (`weekAgo`, `monthAgo`, or a year back): the
trailing-window filter date. -/
def getFilterDate (now : Int) : TimeRange → Int
  | TimeRange.week => now - 7 * msPerDay
  | TimeRange.month => now - 30 * msPerDay
  | TimeRange.year => now - 365 * msPerDay

/-- Membership of a session's completion instant in one calendar-day bucket
`[dayStart, dayEnd]` (`dayEnd = dayStart + msPerDay - 1`, the page's
`setHours(23, 59, 59, 999)`); an absent completion instant compares like
`NaN` and lands in no bucket. -/
def inDayBucket (dayStart : Int) (s : AnalyticsSession) : Bool :=
  match s.completedAt with
  | some t => decide (dayStart ≤ t ∧ t ≤ dayStart + msPerDay - 1)
  | none => false

/-- Trailing-window filter `session.completedAt && new
Date(session.completedAt) >= filterDate`. -/
def filteredSessions (range : TimeRange) (now : Int)
    (sessions : List AnalyticsSession) : List AnalyticsSession :=
  sessions.filter fun s =>
    match s.completedAt with
    | some t => decide (getFilterDate now range ≤ t)
    | none => false

/-- StudyHoursDatum: one bucket of the daily-hours series. `day` is the
bucket's calendar-day start (the page renders it as a locale weekday or
month/day label), `hours` the rounded-to-one-decimal bucket total,
`sessions` the bucket's session count. -/
structure StudyHoursDatum where
  day : Int
  hours : ℚ
  sessions : Nat
  deriving DecidableEq, Repr

/-- One iteration of the daily-hours loop at offset `i` days before now:
bucket the filtered sessions into the calendar day of `now - i` days, sum
`totalFocusMinutes / 60` over the bucket, and round via
`Math.round(dayHours * 10) / 10`. -/
def studyHoursEntry (filtered : List AnalyticsSession) (now : Int)
    (i : Nat) : StudyHoursDatum :=
  let dayStart := dayFloor (now - (i : Int) * msPerDay)
  let daySessions := filtered.filter (inDayBucket dayStart)
  let dayHours : ℚ :=
    (daySessions.map fun s => (s.totalFocusMinutes : ℚ) / 60).sum
  { day := dayStart
    hours := (jsRound (dayHours * 10) : ℚ) / 10
    sessions := daySessions.length }

/-- Daily-hours series: the loop `for (let i = daysToShow - 1; i >= 0; i--)`
pushing one bucket per day, oldest first, ending at the day of `now`. -/
def loadStudyHoursData (range : TimeRange) (now : Int)
    (sessions : List AnalyticsSession) : List StudyHoursDatum :=
  (List.range (daysToShow range)).map fun j =>
    studyHoursEntry (filteredSessions range now sessions) now
      (daysToShow range - 1 - j)

/-- TaskSplitDatum: one slice of the completed/pending pie. -/
structure TaskSplitDatum where
  name : String
  value : ℤ
  deriving DecidableEq, Repr

/-- Completed/pending split: `completedTasks = user.stats.tasksCompleted`,
`totalTasks = completedTasks + 10` (the page's approximation of pending
tasks), each slice `Math.round(part / totalTasks * 100)` guarded by
`totalTasks > 0`. -/
def taskCompletionDataOf (tasksCompleted : Nat) : List TaskSplitDatum :=
  let completedTasks := tasksCompleted
  let totalTasks := completedTasks + 10
  [ { name := "Completed"
      value := if totalTasks > 0 then
          jsRound ((completedTasks : ℚ) / (totalTasks : ℚ) * 100)
        else 0 },
    { name := "Pending"
      value := if totalTasks > 0 then
          jsRound (((totalTasks - completedTasks : Nat) : ℚ) / (totalTasks : ℚ) * 100)
        else 0 } ]

/-- SessionDatum: one row of the detailed session table; `date` keeps the
raw start instant that the page renders with `toLocaleDateString`. -/
structure SessionDatum where
  id : String
  name : String
  date : Int
  duration : Nat
  tasksCompleted : Nat
  pomodoroType : String
  deriving DecidableEq, Repr

/-- Detailed session rows mapped from the filtered sessions; the page keeps
`sessionData.slice(0, 10)`. -/
def sessionDataOf (range : TimeRange) (now : Int)
    (sessions : List AnalyticsSession) : List SessionDatum :=
  ((filteredSessions range now sessions).map fun s =>
    { id := s.id
      name := s.name
      date := s.startTime
      duration := s.totalFocusMinutes
      tasksCompleted := s.tasksCompleted
      pomodoroType := s.pomodoroType }).take 10

/-- StreakDatum: one day of the 30-day streak calendar; `date` is the
calendar-day start behind the page's `toISOString().split` date label. -/
structure StreakDatum where
  date : Int
  studied : Bool
  deriving DecidableEq, Repr

/-- One streak-calendar day at offset `i` days before now: `studied` when
any session (unfiltered) completed within that calendar day. -/
def streakEntry (sessions : List AnalyticsSession) (now : Int) (i : Nat) :
    StreakDatum :=
  let dayStart := dayFloor (now - (i : Int) * msPerDay)
  { date := dayStart
    studied := sessions.any (inDayBucket dayStart) }

/-- Streak calendar: the loop `for (let i = 29; i >= 0; i--)`. -/
def streakDataOf (now : Int) (sessions : List AnalyticsSession) :
    List StreakDatum :=
  (List.range 30).map fun j => streakEntry sessions now (29 - j)

/-- UserStats: the `user.stats` base record the page spreads into its
stats. -/
structure UserStats where
  totalStudyTime : Nat
  tasksCompleted : Nat
  cardsMastered : Nat
  studyStreak : Nat
  deriving DecidableEq, Repr

/-- StatsOut: the enhanced stats the page assembles. -/
structure StatsOut where
  totalStudyTime : Nat
  tasksCompleted : Nat
  cardsMastered : Nat
  studyStreak : Nat
  totalSessions : Nat
  avgSessionLength : ℤ
  thisWeekHours : ℚ
  thisWeekSessions : Nat
  deriving DecidableEq, Repr

/-- Enhanced stats: `thisWeekSessions`/`thisWeekHours` over the sessions
completed since `weekAgo` (independent of the selected range),
`avgSessionLength` the rounded mean focus minutes over all sessions, zero
when there are none. -/
def statsOf (userStats : UserStats) (now : Int)
    (sessions : List AnalyticsSession) : StatsOut :=
  let weekAgo := now - 7 * msPerDay
  let thisWeekSessions := sessions.filter fun s =>
    match s.completedAt with
    | some t => decide (weekAgo ≤ t)
    | none => false
  let thisWeekHours : ℚ :=
    (thisWeekSessions.map fun s => (s.totalFocusMinutes : ℚ) / 60).sum
  let avgSessionLength : ℚ :=
    if sessions.length > 0 then
      ((sessions.map fun s => (s.totalFocusMinutes : ℚ)).sum) / (sessions.length : ℚ)
    else 0
  { totalStudyTime := userStats.totalStudyTime
    tasksCompleted := userStats.tasksCompleted
    cardsMastered := userStats.cardsMastered
    studyStreak := userStats.studyStreak
    totalSessions := sessions.length
    avgSessionLength := jsRound avgSessionLength
    thisWeekHours := (jsRound (thisWeekHours * 10) : ℚ) / 10
    thisWeekSessions := thisWeekSessions.length }

/-- AnalyticsData: everything `setAnalyticsData` receives. -/
structure AnalyticsData where
  studyHoursData : List StudyHoursDatum
  taskCompletionData : List TaskSplitDatum
  sessionData : List SessionDatum
  streakData : List StreakDatum
  stats : StatsOut
  deriving DecidableEq, Repr

/-- Fallback value set by the catch block of `loadAnalyticsData`: zeroed
stats, a 0/100 split, and empty series lists. -/
def fallbackAnalyticsData : AnalyticsData :=
  { studyHoursData := []
    taskCompletionData :=
      [ { name := "Completed", value := 0 },
        { name := "Pending", value := 100 } ]
    sessionData := []
    streakData := []
    stats :=
      { totalStudyTime := 0
        tasksCompleted := 0
        cardsMastered := 0
        studyStreak := 0
        totalSessions := 0
        avgSessionLength := 0
        thisWeekHours := 0
        thisWeekSessions := 0 } }

/-- loadAnalyticsData: races the analytics/sessions fetch against a
timeout; on any failure (fetch error or timeout) the catch block installs
`fallbackAnalyticsData`, otherwise the series are computed from the fetched
sessions (the fetched aggregate row itself is never read again). -/
def loadAnalyticsData (range : TimeRange) (userStats : UserStats)
    (now : Int)
    (fetched : Except Unit (Analytics × List AnalyticsSession)) :
    AnalyticsData :=
  match fetched with
  | Except.error _ => fallbackAnalyticsData
  | Except.ok (_analyticsResponse, sessions) =>
      { studyHoursData := loadStudyHoursData range now sessions
        taskCompletionData := taskCompletionDataOf userStats.tasksCompleted
        sessionData := sessionDataOf range now sessions
        streakData := streakDataOf now sessions
        stats := statsOf userStats now sessions }

/-! ## The rows the analytics page actually receives -/

/-- StudySession: the stored session row (`interface StudySession` in
client.tsx) that `getStudySessions` returns: snake_case columns, minute
`duration`, ISO-string times. -/
structure StudySession where
  id : String
  user_id : String
  session_name : String
  subject : String
  duration : Nat
  start_time : String
  end_time : Option String
  created_at : String
  deriving DecidableEq, Repr

/-- Property reads the analytics page performs on a stored session row:
it accesses `completedAt`, `totalFocusMinutes`, `name`, `startTime`,
`tasksCompleted` and `pomodoroType`, none of which exist on the
`StudySession` interface (whose columns are `end_time`, `duration`,
`session_name`, `start_time`), so in JavaScript every one of these reads
yields `undefined`. An `undefined` `completedAt` fails every truthiness
test and every date comparison, so such a row enters no filter, bucket or
streak day; the remaining `undefined` reads are modelled by zero/empty
defaults, which only ever flow into sums over empty lists or into display
rows. -/
def StudySession.pageView (s : StudySession) : AnalyticsSession :=
  { id := s.id
    name := ""
    startTime := 0
    completedAt := none
    totalFocusMinutes := 0
    tasksCompleted := 0
    pomodoroType := "" }

/-! ## Helper lemmas -/

/-- Executable rational floor agrees with the mathematical floor. -/
theorem ratFloor_eq_floor (q : ℚ) : ratFloor q = ⌊q⌋ :=
  Rat.floor_def.symm

/-- Math.round of zero is zero. -/
theorem jsRound_zero : jsRound 0 = 0 := by
  unfold jsRound
  rw [ratFloor_eq_floor]
  norm_num

/-- Looking up the key just assigned by `setKey` yields the assigned
value. -/
theorem lookup_setKey_self (m : List (String × Nat)) (k : String) (v : Nat) :
    List.lookup k (setKey m k v) = some v := by
  induction m with
  | nil => simp [setKey, List.lookup]
  | cons p rest ih =>
      obtain ⟨a, b⟩ := p
      by_cases h : a = k
      · subst h
        simp [setKey, List.lookup]
      · simp [setKey, h, List.lookup, ih,
          beq_eq_false_iff_ne.mpr (Ne.symm h)]

/-- Every element surviving `dropWhile p` satisfies `p` exactly when every
element of the original list does. -/
theorem forall_mem_dropWhile_iff {α : Type} (p : α → Bool) (l : List α) :
    (∀ x ∈ l.dropWhile p, p x) ↔ (∀ x ∈ l, p x) := by
  induction l with
  | nil => simp
  | cons a l ih =>
      by_cases h : p a
      · simpa [List.dropWhile_cons, h] using ih
      · simp [List.dropWhile_cons, h]

/-- A character list trims to nothing exactly when it is all whitespace. -/
theorem jsTrimList_eq_nil_iff (l : List Char) :
    jsTrimList l = [] ↔ ∀ c ∈ l, Char.isWhitespace c := by
  unfold jsTrimList
  rw [List.reverse_eq_nil_iff, List.dropWhile_eq_nil_iff]
  constructor
  · intro h c hc
    have h2 : ∀ x ∈ l.dropWhile Char.isWhitespace, Char.isWhitespace x :=
      fun x hx => h x (List.mem_reverse.mpr hx)
    exact (forall_mem_dropWhile_iff _ _).mp h2 c hc
  · intro h x hx
    exact h x ((List.dropWhile_sublist _).subset (List.mem_reverse.mp hx))

/-! ## Claim theorems -/

/-- C1: completing a work phase increments the cycle count from c to c+1
and moves to the long break exactly when (c+1) % 4 = 0 and to the short
break otherwise; completing either break returns to work with the cycle
count unchanged. -/
theorem C1_phase_cycling (c : Nat) :
    handlePhaseComplete PomodoroPhase.work c
      = ((if (c + 1) % 4 = 0 then PomodoroPhase.longBreak
          else PomodoroPhase.shortBreak), c + 1) ∧
    handlePhaseComplete PomodoroPhase.shortBreak c = (PomodoroPhase.work, c) ∧
    handlePhaseComplete PomodoroPhase.longBreak c = (PomodoroPhase.work, c) :=
  ⟨rfl, rfl, rfl⟩

/-- C3: for a session start time at or before now and a positive configured
work duration, the reconciled remaining seconds lie in
[0, workDuration * 60], and they are 0 as soon as the elapsed wall-clock
time reaches the configured duration. -/
theorem C3_reconciliation_bounds (workDuration : Nat) (now startTime : Int)
    (hpast : startTime ≤ now) (hpos : 0 < workDuration) :
    0 ≤ checkActiveSessionRemaining workDuration now startTime ∧
    checkActiveSessionRemaining workDuration now startTime
      ≤ (workDuration : Int) * 60 ∧
    ((workDuration : Int) * 60000 ≤ now - startTime →
      checkActiveSessionRemaining workDuration now startTime = 0) := by
  have he : 0 ≤ elapsedMinutes now startTime :=
    Int.ediv_nonneg (by omega) (by norm_num)
  have hw : (0 : Int) ≤ (workDuration : Int) * 60 := by positivity
  refine ⟨le_max_left _ _, ?_, ?_⟩
  · unfold checkActiveSessionRemaining
    omega
  · intro hfull
    have hdone : (workDuration : Int) ≤ elapsedMinutes now startTime := by
      unfold elapsedMinutes
      rw [Int.le_ediv_iff_mul_le (by norm_num : (0 : Int) < 60000)]
      omega
    unfold checkActiveSessionRemaining
    omega

/-- C3 witness: concrete evaluation one minute into a 25-minute phase. -/
theorem C3_reconciliation_bounds_witness :
    0 ≤ checkActiveSessionRemaining 25 60000 0 ∧
    checkActiveSessionRemaining 25 60000 0 ≤ ((25 : Nat) : Int) * 60 ∧
    (((25 : Nat) : Int) * 60000 ≤ 60000 - 0 →
      checkActiveSessionRemaining 25 60000 0 = 0) :=
  C3_reconciliation_bounds 25 60000 0 (by decide) (by decide)

/-- C4 counterexample: with the session start two minutes in the future,
reconciliation does not fail with any error; it produces the remaining-time
value 1620, which even exceeds the configured 25 * 60 = 1500 seconds. The
source computes the value unconditionally and has no InvalidSessionState
(or any other) failure path for a future or unparsable start time. -/
theorem C4_no_invalid_session_state_counterexample :
    checkActiveSessionRemaining 25 0 120000 = 1620 ∧
    ((25 : Nat) : Int) * 60 < checkActiveSessionRemaining 25 0 120000 := by
  constructor <;> decide

/-- C4 amended: for every session start time strictly in the future,
reconciliation still produces a remaining-time value, and that value is
strictly greater than the configured duration in seconds (the negative
elapsed-minute floor inflates the remainder); no error is raised. -/
theorem C4_future_start_produces_value (workDuration : Nat)
    (now startTime : Int) (hfuture : now < startTime) :
    (workDuration : Int) * 60
      < checkActiveSessionRemaining workDuration now startTime := by
  have he : elapsedMinutes now startTime < 0 :=
    Int.ediv_neg' (by omega) (by norm_num)
  have hw : (0 : Int) ≤ (workDuration : Int) * 60 := by positivity
  unfold checkActiveSessionRemaining
  omega

/-- C4 witness: the amended statement at the concrete future start. -/
theorem C4_future_start_produces_value_witness :
    ((25 : Nat) : Int) * 60 < checkActiveSessionRemaining 25 0 120000 :=
  C4_future_start_produces_value 25 0 120000 (by decide)

/-- C2: closing a session with subject s and duration d bumps the owner's
aggregate (read through the lazily-initializing getAnalytics) by one
session, d study minutes, and d minutes on the subject s entry of the
breakdown, creating the key at 0 when absent; the lazily created row is
the zeroed initializeUserAnalytics row. -/
theorem C2_session_close_aggregate (stored : Option Analytics)
    (subject : String) (d : Nat) :
    (updateAnalyticsAfterSession subject d stored).total_sessions
      = (getAnalytics stored).total_sessions + 1 ∧
    (updateAnalyticsAfterSession subject d stored).total_study_time
      = (getAnalytics stored).total_study_time + d ∧
    List.lookup subject
        (updateAnalyticsAfterSession subject d stored).subjects_breakdown
      = some ((List.lookup subject
          (getAnalytics stored).subjects_breakdown).getD 0 + d) ∧
    getAnalytics none = initializeUserAnalytics := by
  refine ⟨rfl, rfl, ?_, rfl⟩
  exact lookup_setKey_self _ _ _

/-- C5: toggling a pending todo to completed stores exactly one more
completed task in the aggregate and changes no other aggregate field;
toggling a completed todo back to pending leaves the stored aggregate
untouched; and neither session-close path ever changes
total_completed_tasks, so no modelled path decrements it. -/
theorem C5_toggle_one_way_counter (todo : Todo) (stored : Option Analytics)
    (nowIso : String) :
    (updateTodo { todo with status := TodoStatus.pending }
        (handleToggleTaskUpdate true nowIso) stored).2
      = some { getAnalytics stored with
          total_completed_tasks :=
            (getAnalytics stored).total_completed_tasks + 1 } ∧
    (updateTodo { todo with status := TodoStatus.completed }
        (handleToggleTaskUpdate false nowIso) stored).2 = stored ∧
    (∀ upd : SessionUpdate,
      (getAnalytics (updateStudySession upd stored)).total_completed_tasks
        = (getAnalytics stored).total_completed_tasks) ∧
    (∀ (subject : String) (d : Nat),
      (updateAnalyticsAfterSession subject d stored).total_completed_tasks
        = (getAnalytics stored).total_completed_tasks) := by
  refine ⟨rfl, rfl, ?_, fun _ _ => rfl⟩
  intro upd
  unfold updateStudySession
  split
  · rfl
  · rfl

/-- C8: creating a todo whose title is all whitespace (or empty) fails with
the validation error and creates nothing; any title containing a
non-whitespace character is accepted and a todo is created. -/
theorem C8_create_todo_validation (todo : Todo) :
    ((∀ c ∈ todo.title.toList, Char.isWhitespace c) →
      createTodo todo = Except.error "Todo title is required") ∧
    ((∃ c ∈ todo.title.toList, ¬ Char.isWhitespace c) →
      ∃ created : Todo, createTodo todo = Except.ok created) := by
  constructor
  · intro hws
    have h : jsTrimList todo.title.toList = [] :=
      (jsTrimList_eq_nil_iff _).mpr hws
    unfold createTodo
    rw [h]
    rfl
  · rintro ⟨c, hc, hcw⟩
    have hne : jsTrimList todo.title.toList ≠ [] := by
      intro h
      exact hcw ((jsTrimList_eq_nil_iff _).mp h c hc)
    rcases hjt : jsTrimList todo.title.toList with _ | ⟨d, ds⟩
    · exact absurd hjt hne
    · refine ⟨{ todo with title := (d :: ds).asString }, ?_⟩
      unfold createTodo
      rw [hjt]
      rfl

/-- C8 witness: a whitespace-only title is rejected and a real title is
accepted. -/
theorem C8_create_todo_validation_witness :
    createTodo { title := "   "
                 description := none
                 status := TodoStatus.pending
                 completed_at := none }
      = Except.error "Todo title is required" ∧
    ∃ created : Todo,
      createTodo { title := " Math homework "
                   description := none
                   status := TodoStatus.pending
                   completed_at := none }
        = Except.ok created :=
  ⟨(C8_create_todo_validation _).1 (by decide),
   (C8_create_todo_validation _).2 (by decide)⟩

/-- C9: any update payload carrying status completed bumps
total_completed_tasks by one regardless of the todo's prior status — here
even with the todo already completed — and repeating the identical update
bumps it again, to plus two. -/
theorem C9_completion_increment_not_idempotent (todo : Todo)
    (updates : TodoUpdate) (stored : Option Analytics)
    (hpayload : updates.status = some TodoStatus.completed)
    (_hprior : todo.status = TodoStatus.completed) :
    (getAnalytics (updateTodo todo updates stored).2).total_completed_tasks
      = (getAnalytics stored).total_completed_tasks + 1 ∧
    (getAnalytics (updateTodo (applyTodoUpdate todo updates) updates
        (updateTodo todo updates stored).2).2).total_completed_tasks
      = (getAnalytics stored).total_completed_tasks + 2 := by
  unfold updateTodo
  rw [hpayload]
  simp [updateAnalyticsAfterTaskCompletion, getAnalytics]

/-- C9 witness: repeating the completion update on an already-completed
todo with no analytics row counts 1 and then 2. -/
theorem C9_completion_increment_not_idempotent_witness :
    (getAnalytics (updateTodo
        { title := "Read"
          description := none
          status := TodoStatus.completed
          completed_at := none }
        { status := some TodoStatus.completed } none).2).total_completed_tasks
      = (getAnalytics none).total_completed_tasks + 1 ∧
    (getAnalytics (updateTodo (applyTodoUpdate
        { title := "Read"
          description := none
          status := TodoStatus.completed
          completed_at := none }
        { status := some TodoStatus.completed })
        { status := some TodoStatus.completed }
        (updateTodo
          { title := "Read"
            description := none
            status := TodoStatus.completed
            completed_at := none }
          { status := some TodoStatus.completed } none).2).2).total_completed_tasks
      = (getAnalytics none).total_completed_tasks + 2 :=
  C9_completion_increment_not_idempotent _ _ none rfl rfl

/-- C10: the session-close analytics update runs only when the payload has
a truthy end_time and a truthy duration, so a payload with duration 0 —
or an absent duration, an absent end_time, or an empty end_time — leaves
the stored aggregate exactly as it was. -/
theorem C10_zero_duration_close_is_frame (upd : SessionUpdate)
    (stored : Option Analytics) :
    (upd.duration = some 0 → updateStudySession upd stored = stored) ∧
    (upd.duration = none → updateStudySession upd stored = stored) ∧
    (upd.end_time = none → updateStudySession upd stored = stored) ∧
    (upd.end_time = some "" → updateStudySession upd stored = stored) := by
  refine ⟨?_, ?_, ?_, ?_⟩ <;>
    intro h <;>
    simp [updateStudySession, h, jsTruthyNat, jsTruthyString]

/-- C10 witness: a zero-duration close with an end time set leaves the
(absent) analytics row absent. -/
theorem C10_zero_duration_close_is_frame_witness :
    updateStudySession
      { subject := some "Math"
        duration := some 0
        end_time := some "2025-01-01T00:00:00.000Z" } none = none :=
  (C10_zero_duration_close_is_frame _ none).1 rfl

/-- C7 counterexample: on fetch failure the layer returns empty daily-hours
and streak lists — 0 entries — not the full zero-filled series (7 and 30
entries) that the success path produces even with no sessions at all. -/
theorem C7_fallback_counterexample :
    (loadAnalyticsData TimeRange.week
        { totalStudyTime := 0
          tasksCompleted := 0
          cardsMastered := 0
          studyStreak := 0 } 0 (Except.error ())).studyHoursData = [] ∧
    (loadAnalyticsData TimeRange.week
        { totalStudyTime := 0
          tasksCompleted := 0
          cardsMastered := 0
          studyStreak := 0 } 0 (Except.error ())).streakData = [] ∧
    (loadAnalyticsData TimeRange.week
        { totalStudyTime := 0
          tasksCompleted := 0
          cardsMastered := 0
          studyStreak := 0 } 0
        (Except.ok (initializeUserAnalytics, []))).studyHoursData.length = 7 ∧
    (loadAnalyticsData TimeRange.week
        { totalStudyTime := 0
          tasksCompleted := 0
          cardsMastered := 0
          studyStreak := 0 } 0
        (Except.ok (initializeUserAnalytics, []))).streakData.length = 30 := by
  refine ⟨rfl, rfl, ?_, ?_⟩ <;>
    simp [loadAnalyticsData, loadStudyHoursData, streakDataOf, daysToShow]

/-- C7 amended: on any fetch failure or timeout the layer returns, without
propagating the error, the fixed fallback structure — zeroed stats and a
0/100 completed/pending split — whose daily-hours, session and streak
lists are empty rather than full-length zero-filled series. -/
theorem C7_fallback_is_fixed_empty_series (range : TimeRange)
    (userStats : UserStats) (now : Int) :
    loadAnalyticsData range userStats now (Except.error ())
      = fallbackAnalyticsData ∧
    fallbackAnalyticsData.studyHoursData = [] ∧
    fallbackAnalyticsData.streakData = [] ∧
    fallbackAnalyticsData.sessionData = [] ∧
    fallbackAnalyticsData.taskCompletionData
      = [ { name := "Completed", value := 0 },
          { name := "Pending", value := 100 } ] ∧
    fallbackAnalyticsData.stats
      = { totalStudyTime := 0
          tasksCompleted := 0
          cardsMastered := 0
          studyStreak := 0
          totalSessions := 0
          avgSessionLength := 0
          thisWeekHours := 0
          thisWeekSessions := 0 } :=
  ⟨rfl, rfl, rfl, rfl, rfl, rfl⟩

/-- Sample stored row for the daily-hours analysis: a closed 25-minute
"Math" session whose end_time is the instant 1000000000000 ms
(2001-09-09T01:46:40.000Z), i.e. closed on the query day itself. -/
def sampleClosedSession : StudySession :=
  { id := "s1"
    user_id := "u1"
    session_name := "Math session"
    subject := "Math"
    duration := 25
    start_time := "2001-09-09T01:21:40.000Z"
    end_time := some "2001-09-09T01:46:40.000Z"
    created_at := "2001-09-09T01:21:40.000Z" }

/-- The same session as the analytics page would need it for its
`completedAt`/`totalFocusMinutes` reads to see the close: completion
instant 1000000000000 ms and 25 focus minutes. -/
def sampleClosedSessionIntended : AnalyticsSession :=
  { id := "s1"
    name := "Math session"
    startTime := 999992500000
    completedAt := some 1000000000000
    totalFocusMinutes := 25
    tasksCompleted := 0
    pomodoroType := "pomodoro" }

/-- Buckets built from an empty filtered list count zero sessions. -/
theorem studyHoursEntry_nil_sessions (now : Int) (i : Nat) :
    (studyHoursEntry [] now i).sessions = 0 := rfl

/-- Buckets built from an empty filtered list report zero hours. -/
theorem studyHoursEntry_nil_hours (now : Int) (i : Nat) :
    (studyHoursEntry [] now i).hours = 0 := by
  unfold studyHoursEntry
  simp [jsRound_zero]

/-- C6: the daily-hours loop reads `session.completedAt` and
`session.totalFocusMinutes`, but the rows returned by getStudySessions
carry `end_time` and `duration` instead (the StudySession interface has no
camelCase fields), so every read yields undefined: with a 25-minute "Math"
session stored as closed at the instant 1000000000000 ms, the page sees
`completedAt = none`, the week series comes back with every bucket at
hours 0 and sessionCount 0, whereas on the record shape the loop assumes
(completion instant and focus minutes populated) the same loop puts the
session in the last (today) bucket with sessionCount 1 and hours
25/60 rounded to one decimal, i.e. 2/5 = 0.4. -/
theorem C6_daily_hours_reads_missing_fields :
    (StudySession.pageView sampleClosedSession).completedAt = none ∧
    (loadStudyHoursData TimeRange.week 1000000000000
        [StudySession.pageView sampleClosedSession]).map
        StudyHoursDatum.sessions = List.replicate 7 0 ∧
    (loadStudyHoursData TimeRange.week 1000000000000
        [StudySession.pageView sampleClosedSession]).map
        StudyHoursDatum.hours = List.replicate 7 (0 : ℚ) ∧
    (loadStudyHoursData TimeRange.week 1000000000000
        [sampleClosedSessionIntended]).map
        StudyHoursDatum.sessions = [0, 0, 0, 0, 0, 0, 1] ∧
    studyHoursEntry
        (filteredSessions TimeRange.week 1000000000000
          [sampleClosedSessionIntended]) 1000000000000 0
      = { day := 999993600000, hours := 2 / 5, sessions := 1 } := by
  have hfil : filteredSessions TimeRange.week 1000000000000
      [StudySession.pageView sampleClosedSession] = [] := rfl
  refine ⟨rfl, ?_, ?_, by decide, ?_⟩
  · simp only [loadStudyHoursData, hfil, List.map_map]
    rw [List.eq_replicate_iff]
    refine ⟨by simp [daysToShow], ?_⟩
    intro b hb
    obtain ⟨j, hj, rfl⟩ := List.mem_map.mp hb
    exact studyHoursEntry_nil_sessions _ _
  · simp only [loadStudyHoursData, hfil, List.map_map]
    rw [List.eq_replicate_iff]
    refine ⟨by simp [daysToShow], ?_⟩
    intro b hb
    obtain ⟨j, hj, rfl⟩ := List.mem_map.mp hb
    exact studyHoursEntry_nil_hours _ _
  · have hbucket : (filteredSessions TimeRange.week 1000000000000
        [sampleClosedSessionIntended]).filter
          (inDayBucket (dayFloor (1000000000000 - ((0 : Nat) : Int) * msPerDay)))
        = [sampleClosedSessionIntended] := by decide
    unfold studyHoursEntry
    dsimp only
    rw [hbucket]
    have hday : dayFloor (1000000000000 - ((0 : Nat) : Int) * msPerDay)
        = 999993600000 := by decide
    rw [hday]
    have hhours : ((jsRound
        (((([sampleClosedSessionIntended]).map
          (fun s => (s.totalFocusMinutes : ℚ) / 60)).sum) * 10) : ℚ) / 10)
        = 2 / 5 := by
      simp only [List.map_cons, List.map_nil, List.sum_cons, List.sum_nil]
      norm_num [sampleClosedSessionIntended, jsRound, ratFloor_eq_floor]
    rw [hhours]
    rfl
